import Mathlib

set_option maxHeartbeats 1000000

/-!
A shallow embedding of the Mousai song-history and recorder subsystems.

The embedded code:
* `src/model/song.rs` — the db-backed `imp::Song` setters (`set_last_heard`,
  `set_is_newly_heard`), its `search_term`, and its serde impls (the struct
  carries `#[serde(default)]`);
* `src/song.rs` — the lite `imp::Song` setter (no db write), `fuzzy_match`,
  and its serde impls (no `#[serde(default)]`, missing `id` is an error);
* `src/recognizer/recorder.rs` — `Recorder::start`, `Recorder::stop`,
  `handle_bus_message`, `create_pipeline`.

Conventions: `DateTime` values are modelled as opaque data (an `Int` instant
for the db-backed setter, an ISO-8601 `String` for serialization); `SongId` /
`Uid` are modelled as opaque unique text, which is how the durable schema
describes them; the serialized form is a flat JSON-like record (`JObj`);
fallible external calls (db writes, pipeline construction, GStreamer state
changes, stream close) are modelled by explicit success/failure parameters.
-/

/-- A JSON-like serialized value: the durable song record is a flat object
whose values are null, text, booleans, or a provider-key → URL string map
(the `external_links` field). -/
inductive JVal
  | null
  | jstr (s : String)
  | jbool (b : Bool)
  | jmap (entries : List (String × String))
  deriving DecidableEq, Repr

/-- A serialized record: an ordered list of named fields. -/
def JObj : Type := List (String × JVal)

/-- Deserialization errors, mirroring serde's missing-field, invalid-type
and duplicate-field errors. -/
inductive DeErr
  | missingField (name : String)
  | invalidType (name : String)
  | duplicateField (name : String)
  deriving DecidableEq, Repr

/-- First occurrence of a field by name, used in statements to say whether
a record contains a field at all. -/
def findField (fields : JObj) (name : String) : Option JVal :=
  match fields with
  | [] => none
  | (k, v) :: rest => if k = name then some v else findField rest name

/-- Serialize an optional string, as serde does for `Option<String>`. -/
def serOptStr : Option String → JVal
  | none => .null
  | some s => .jstr s

/-- Decode a `String`-typed value (serde's `next_value::<String>()`):
anything but text is an invalid-type error naming the field. -/
def decStr (name : String) : JVal → Except DeErr String
  | .jstr s => .ok s
  | _ => .error (.invalidType name)

/-- Decode an `Option<String>`-typed value: null is `None`, text is
`Some`. -/
def decOptStr (name : String) : JVal → Except DeErr (Option String)
  | .null => .ok none
  | .jstr s => .ok (some s)
  | _ => .error (.invalidType name)

/-- Decode a `bool`-typed value. -/
def decBool (name : String) : JVal → Except DeErr Bool
  | .jbool b => .ok b
  | _ => .error (.invalidType name)

/-- Decode an `ExternalLinks`-typed value (a string map). -/
def decLinks (name : String) : JVal → Except DeErr (List (String × String))
  | .jmap m => .ok m
  | _ => .error (.invalidType name)

/-- Whether a deserialization attempt succeeded. -/
def deIsOk {α : Type} : Except DeErr α → Bool
  | .ok _ => true
  | .error _ => false

/-- Whether a deserialization attempt failed specifically with a
missing-field error. -/
def isMissingFieldErr {α : Type} : Except DeErr α → Bool
  | .error (.missingField _) => true
  | _ => false

namespace ModelSong

/-- In-memory mutable fields of `imp::Song` in `src/model/song.rs`: the
`last_heard` RefCell and the `is_newly_heard` Cell.  The `DateTime` instant
is modelled as an `Int`. -/
structure Mem where
  lastHeard : Int
  isNewlyHeard : Bool
  deriving DecidableEq, Repr

/-- The durable database row backing the song, written through
`db::song::update_last_heard` and `db::song::update_is_newly_heard`. -/
structure Db where
  lastHeard : Int
  isNewlyHeard : Bool
  deriving DecidableEq, Repr

/-- The joint in-memory plus durable state one setter call acts on. -/
structure World where
  mem : Mem
  db : Db
  deriving DecidableEq, Repr

/-- Observable effects of a setter call, listed in execution order: the
durable write, the in-memory replace, and the property-changed
notification. -/
inductive Ev
  | dbUpdateLastHeard (v : Int)
  | memReplaceLastHeard (v : Int)
  | notifyLastHeard
  | dbUpdateIsNewlyHeard (b : Bool)
  | memReplaceIsNewlyHeard (b : Bool)
  | notifyIsNewlyHeard
  deriving DecidableEq, Repr

/-- How a setter call ends: a normal return, an uncaught panic (the
`.unwrap()` on a failed db write aborts), or an error value returned to the
caller.  The embedded setters never produce `caughtErr`: their Rust
signatures return `()` and offer no error channel. -/
inductive Outcome
  | ok (w : World) (tr : List Ev)
  | panicked (w : World) (tr : List Ev)
  | caughtErr (w : World) (tr : List Ev)
  deriving DecidableEq, Repr

/-- Whether an outcome is an error value returned to the caller. -/
def isCaughtErr : Outcome → Bool
  | .caughtErr _ _ => true
  | _ => false

/-- `imp::Song::set_last_heard` (src/model/song.rs lines 92–102): early
return when the value is unchanged; otherwise
`db::song::update_last_heard(..).unwrap()`, then the in-memory replace,
then `notify_last_heard`.  `dbOk` says whether the durable write succeeds;
when it fails the durable row is untouched and the `.unwrap()` panics. -/
def set_last_heard (dbOk : Bool) (w : World) (v : Int) : Outcome :=
  if v = w.mem.lastHeard then
    .ok w []
  else if dbOk then
    .ok ⟨⟨v, w.mem.isNewlyHeard⟩, ⟨v, w.db.isNewlyHeard⟩⟩
      [.dbUpdateLastHeard v, .memReplaceLastHeard v, .notifyLastHeard]
  else
    .panicked w []

/-- `imp::Song::set_is_newly_heard` (src/model/song.rs lines 104–114),
analogous to `set_last_heard`. -/
def set_is_newly_heard (dbOk : Bool) (w : World) (b : Bool) : Outcome :=
  if b = w.mem.isNewlyHeard then
    .ok w []
  else if dbOk then
    .ok ⟨⟨w.mem.lastHeard, b⟩, ⟨w.db.lastHeard, b⟩⟩
      [.dbUpdateIsNewlyHeard b, .memReplaceIsNewlyHeard b, .notifyIsNewlyHeard]
  else
    .panicked w []

/-- The data carried by the `imp::Song` struct of `src/model/song.rs` for
serialization purposes.  `SongId` is opaque unique text and the `DateTime`
is its ISO-8601 text. -/
structure Data where
  id : String
  title : String
  artist : String
  album : String
  release_date : Option String
  external_links : List (String × String)
  album_art_link : Option String
  playback_link : Option String
  lyrics : Option String
  last_heard : String
  is_newly_heard : Bool
  deriving DecidableEq, Repr

/-- Derived `Serialize` of `imp::Song` (src/model/song.rs): every field is
emitted in declaration order; the `id` OnceCell is serialized through
`serialize_once_cell`, which emits the contained id (always present on a
constructed song). -/
def serialize (d : Data) : JObj :=
  [("id", .jstr d.id),
   ("title", .jstr d.title),
   ("artist", .jstr d.artist),
   ("album", .jstr d.album),
   ("release_date", serOptStr d.release_date),
   ("external_links", .jmap d.external_links),
   ("album_art_link", serOptStr d.album_art_link),
   ("playback_link", serOptStr d.playback_link),
   ("lyrics", serOptStr d.lyrics),
   ("last_heard", .jstr d.last_heard),
   ("is_newly_heard", .jbool d.is_newly_heard)]

/-- Traversal state of the derived `imp::Song` deserializer of
`src/model/song.rs`: one slot per declared field, filled while the
record's entries are visited in order. -/
structure Slots where
  id : Option String
  title : Option String
  artist : Option String
  album : Option String
  release_date : Option (Option String)
  external_links : Option (List (String × String))
  album_art_link : Option (Option String)
  playback_link : Option (Option String)
  lyrics : Option (Option String)
  last_heard : Option String
  is_newly_heard : Option Bool
  deriving DecidableEq, Repr

/-- All slots unfilled, the state before the map traversal starts. -/
def emptySlots : Slots :=
  ⟨none, none, none, none, none, none, none, none, none, none, none⟩

/-- One visited record entry of the derived deserializer: a known key
first fails on a duplicate (its slot already filled), then decodes the
value at the field's type; an unknown key is ignored (no
`deny_unknown_fields`). -/
def applyField (k : String) (v : JVal) (acc : Slots) : Except DeErr Slots :=
  if k = "id" then
    match acc.id, decStr "id" v with
    | some _, _ => .error (.duplicateField "id")
    | none, .error e => .error e
    | none, .ok x => .ok { acc with id := some x }
  else if k = "title" then
    match acc.title, decStr "title" v with
    | some _, _ => .error (.duplicateField "title")
    | none, .error e => .error e
    | none, .ok x => .ok { acc with title := some x }
  else if k = "artist" then
    match acc.artist, decStr "artist" v with
    | some _, _ => .error (.duplicateField "artist")
    | none, .error e => .error e
    | none, .ok x => .ok { acc with artist := some x }
  else if k = "album" then
    match acc.album, decStr "album" v with
    | some _, _ => .error (.duplicateField "album")
    | none, .error e => .error e
    | none, .ok x => .ok { acc with album := some x }
  else if k = "release_date" then
    match acc.release_date, decOptStr "release_date" v with
    | some _, _ => .error (.duplicateField "release_date")
    | none, .error e => .error e
    | none, .ok x => .ok { acc with release_date := some x }
  else if k = "external_links" then
    match acc.external_links, decLinks "external_links" v with
    | some _, _ => .error (.duplicateField "external_links")
    | none, .error e => .error e
    | none, .ok x => .ok { acc with external_links := some x }
  else if k = "album_art_link" then
    match acc.album_art_link, decOptStr "album_art_link" v with
    | some _, _ => .error (.duplicateField "album_art_link")
    | none, .error e => .error e
    | none, .ok x => .ok { acc with album_art_link := some x }
  else if k = "playback_link" then
    match acc.playback_link, decOptStr "playback_link" v with
    | some _, _ => .error (.duplicateField "playback_link")
    | none, .error e => .error e
    | none, .ok x => .ok { acc with playback_link := some x }
  else if k = "lyrics" then
    match acc.lyrics, decOptStr "lyrics" v with
    | some _, _ => .error (.duplicateField "lyrics")
    | none, .error e => .error e
    | none, .ok x => .ok { acc with lyrics := some x }
  else if k = "last_heard" then
    match acc.last_heard, decStr "last_heard" v with
    | some _, _ => .error (.duplicateField "last_heard")
    | none, .error e => .error e
    | none, .ok x => .ok { acc with last_heard := some x }
  else if k = "is_newly_heard" then
    match acc.is_newly_heard, decBool "is_newly_heard" v with
    | some _, _ => .error (.duplicateField "is_newly_heard")
    | none, .error e => .error e
    | none, .ok x => .ok { acc with is_newly_heard := some x }
  else
    .ok acc

/-- The map-traversal loop: entries are visited in record order, so
invalid-type and duplicate-field errors surface in that order, before any
missing-field consideration. -/
def visitFields : List (String × JVal) → Slots → Except DeErr Slots
  | [], acc => .ok acc
  | (k, v) :: rest, acc =>
    match applyField k v acc with
    | .error e => .error e
    | .ok acc2 => visitFields rest acc2

/-- The post-loop phase under `#[serde(default)]`: every unfilled slot
takes its default — for the `id` OnceCell the empty cell, which the
wrapper `Deserialize for Song` then replaces by a fresh default id
(`unwrap_or_default`), passed here as `freshId`; `defaultLastHeard` is the
`DateTime::default()` text.  No missing-field error is possible. -/
def finishFields (freshId defaultLastHeard : String) (s : Slots) : Data :=
  ⟨s.id.getD freshId, s.title.getD "", s.artist.getD "", s.album.getD "",
   s.release_date.getD none, s.external_links.getD [],
   s.album_art_link.getD none, s.playback_link.getD none, s.lyrics.getD none,
   s.last_heard.getD defaultLastHeard, s.is_newly_heard.getD false⟩

/-- `Deserialize for Song` (src/model/song.rs lines 183–209): the derived
`imp::Song` deserialize (map traversal, then `#[serde(default)]`
defaults for unfilled slots), then the wrapper builds the object. -/
def deserialize (freshId defaultLastHeard : String) (fields : JObj) :
    Except DeErr Data :=
  match visitFields fields emptySlots with
  | .error e => .error e
  | .ok s => .ok (finishFields freshId defaultLastHeard s)

/-- `Song::search_term` (src/model/song.rs lines 131–134): the string the
song is matched against when searching, `format!("{}{}", title, artist)`. -/
def search_term (d : Data) : String :=
  d.title ++ d.artist

end ModelSong

namespace SrcSong

/-- In-memory state of the lite `imp::Song` of `src/song.rs`, whose
`last_heard` is an `Option<DateTime>` (instant modelled as `Int`) and whose
setter performs no durable write. -/
structure LiteWorld where
  lastHeard : Option Int
  deriving DecidableEq, Repr

/-- Observable effects of the lite setter. -/
inductive Ev
  | memReplaceLastHeard (v : Option Int)
  | notifyLastHeard
  deriving DecidableEq, Repr

/-- `imp::Song::set_last_heard` (src/song.rs lines 76–85): early return
when unchanged, otherwise replace the cell and notify; no db access. -/
def set_last_heard (w : LiteWorld) (v : Option Int) : LiteWorld × List Ev :=
  if v = w.lastHeard then
    (w, [])
  else
    (⟨v⟩, [.memReplaceLastHeard v, .notifyLastHeard])

/-- The data carried by the `imp::Song` struct of `src/song.rs`.  `Uid` is
opaque unique text; `last_heard` is optional ISO-8601 text. -/
structure Data where
  id : String
  title : String
  artist : String
  album : String
  release_date : Option String
  external_links : List (String × String)
  album_art_link : Option String
  playback_link : Option String
  lyrics : Option String
  last_heard : Option String
  is_newly_heard : Bool
  deriving DecidableEq, Repr

/-- Derived `Serialize` of `imp::Song` (src/song.rs): every field emitted
in declaration order; the `id` OnceCell is serialized through
`serde_helpers::once_cell` as the contained id. -/
def serialize (d : Data) : JObj :=
  [("id", .jstr d.id),
   ("title", .jstr d.title),
   ("artist", .jstr d.artist),
   ("album", .jstr d.album),
   ("release_date", serOptStr d.release_date),
   ("external_links", .jmap d.external_links),
   ("album_art_link", serOptStr d.album_art_link),
   ("playback_link", serOptStr d.playback_link),
   ("lyrics", serOptStr d.lyrics),
   ("last_heard", serOptStr d.last_heard),
   ("is_newly_heard", .jbool d.is_newly_heard)]

/-- Traversal state of the derived `imp::Song` deserializer of
`src/song.rs`: one slot per declared field, filled while the record's
entries are visited in order. -/
structure Slots where
  id : Option String
  title : Option String
  artist : Option String
  album : Option String
  release_date : Option (Option String)
  external_links : Option (List (String × String))
  album_art_link : Option (Option String)
  playback_link : Option (Option String)
  lyrics : Option (Option String)
  last_heard : Option (Option String)
  is_newly_heard : Option Bool
  deriving DecidableEq, Repr

/-- All slots unfilled, the state before the map traversal starts. -/
def emptySlots : Slots :=
  ⟨none, none, none, none, none, none, none, none, none, none, none⟩

/-- One visited record entry of the derived deserializer: a known key
first fails on a duplicate (its slot already filled), then decodes the
value at the field's type; an unknown key is ignored (no
`deny_unknown_fields`). -/
def applyField (k : String) (v : JVal) (acc : Slots) : Except DeErr Slots :=
  if k = "id" then
    match acc.id, decStr "id" v with
    | some _, _ => .error (.duplicateField "id")
    | none, .error e => .error e
    | none, .ok x => .ok { acc with id := some x }
  else if k = "title" then
    match acc.title, decStr "title" v with
    | some _, _ => .error (.duplicateField "title")
    | none, .error e => .error e
    | none, .ok x => .ok { acc with title := some x }
  else if k = "artist" then
    match acc.artist, decStr "artist" v with
    | some _, _ => .error (.duplicateField "artist")
    | none, .error e => .error e
    | none, .ok x => .ok { acc with artist := some x }
  else if k = "album" then
    match acc.album, decStr "album" v with
    | some _, _ => .error (.duplicateField "album")
    | none, .error e => .error e
    | none, .ok x => .ok { acc with album := some x }
  else if k = "release_date" then
    match acc.release_date, decOptStr "release_date" v with
    | some _, _ => .error (.duplicateField "release_date")
    | none, .error e => .error e
    | none, .ok x => .ok { acc with release_date := some x }
  else if k = "external_links" then
    match acc.external_links, decLinks "external_links" v with
    | some _, _ => .error (.duplicateField "external_links")
    | none, .error e => .error e
    | none, .ok x => .ok { acc with external_links := some x }
  else if k = "album_art_link" then
    match acc.album_art_link, decOptStr "album_art_link" v with
    | some _, _ => .error (.duplicateField "album_art_link")
    | none, .error e => .error e
    | none, .ok x => .ok { acc with album_art_link := some x }
  else if k = "playback_link" then
    match acc.playback_link, decOptStr "playback_link" v with
    | some _, _ => .error (.duplicateField "playback_link")
    | none, .error e => .error e
    | none, .ok x => .ok { acc with playback_link := some x }
  else if k = "lyrics" then
    match acc.lyrics, decOptStr "lyrics" v with
    | some _, _ => .error (.duplicateField "lyrics")
    | none, .error e => .error e
    | none, .ok x => .ok { acc with lyrics := some x }
  else if k = "last_heard" then
    match acc.last_heard, decOptStr "last_heard" v with
    | some _, _ => .error (.duplicateField "last_heard")
    | none, .error e => .error e
    | none, .ok x => .ok { acc with last_heard := some x }
  else if k = "is_newly_heard" then
    match acc.is_newly_heard, decBool "is_newly_heard" v with
    | some _, _ => .error (.duplicateField "is_newly_heard")
    | none, .error e => .error e
    | none, .ok x => .ok { acc with is_newly_heard := some x }
  else
    .ok acc

/-- The map-traversal loop: entries are visited in record order, so
invalid-type and duplicate-field errors surface in that order, before any
missing-field check. -/
def visitFields : List (String × JVal) → Slots → Except DeErr Slots
  | [], acc => .ok acc
  | (k, v) :: rest, acc =>
    match applyField k v acc with
    | .error e => .error e
    | .ok acc2 => visitFields rest acc2

/-- The post-loop phase without `#[serde(default)]`: unfilled slots are
checked in declaration order.  The `id` field uses a `deserialize_with`
module, so its absence is always the missing-field error; a plain missing
`Option` field yields `None` through serde's missing-field probe
(`deserialize_option` is the one method the probe answers); the remaining
`String`, `ExternalLinks` and `bool` fields error when absent. -/
def finishFields (s : Slots) : Except DeErr Data :=
  match s.id with
  | none => .error (.missingField "id")
  | some id =>
    match s.title with
    | none => .error (.missingField "title")
    | some title =>
      match s.artist with
      | none => .error (.missingField "artist")
      | some artist =>
        match s.album with
        | none => .error (.missingField "album")
        | some album =>
          match s.external_links with
          | none => .error (.missingField "external_links")
          | some external_links =>
            match s.is_newly_heard with
            | none => .error (.missingField "is_newly_heard")
            | some is_newly_heard =>
              .ok ⟨id, title, artist, album, s.release_date.getD none,
                external_links, s.album_art_link.getD none,
                s.playback_link.getD none, s.lyrics.getD none,
                s.last_heard.getD none, is_newly_heard⟩

/-- `Deserialize for Song` (src/song.rs lines 151–183): the derived
`imp::Song` deserialize (map traversal, then declaration-order missing
checks starting with `id`), then the wrapper builds the object — its
explicit `ok_or_else(missing_field("id"))` can only repeat the missing-id
error the derive already raised. -/
def deserialize (fields : JObj) : Except DeErr Data :=
  match visitFields fields emptySlots with
  | .error e => .error e
  | .ok s => finishFields s

/-- `Song::fuzzy_match` (src/song.rs lines 115–121): builds the choice
string `format!("{} {}", artist, title)` and hands it with the pattern to
the skim fuzzy matcher, which is kept abstract. -/
def fuzzy_match (matcher : String → String → Option Int) (s : Data)
    (pat : String) : Option Int :=
  matcher (s.artist ++ " " ++ s.title) pat

end SrcSong

/-- The state GStreamer objects held by an active `Recorder`
(src/recognizer/recorder.rs): the pipeline configured with the requested
device and the in-memory output stream whose accumulated bytes the
encoder writes. -/
structure ActivePipeline where
  device : Option String
  buffer : List Nat
  deriving DecidableEq, Repr

/-- The `Recorder` struct: a cell that is `some` exactly while a recording
is in progress (the stored pipeline, bus watch guard and output stream). -/
structure Recorder where
  pipeline : Option ActivePipeline
  deriving DecidableEq, Repr

/-- Failure modes of `Recorder::start` and `Recorder::stop`: the two
`anyhow` errors raised by the recorder itself plus the propagated external
failures (element creation/link in `create_pipeline`, a pipeline
`set_state` failure, a stream close failure). -/
inductive RecErr
  | alreadyRecording
  | notRecording
  | createPipelineFailed
  | setStateFailed
  | closeStreamFailed
  deriving DecidableEq, Repr

/-- `Recorder::start` (src/recognizer/recorder.rs lines 25–53): the
`ensure!` guard fails with the already-recording error while the cell is
occupied, touching nothing; otherwise a fresh empty output stream and a
pipeline are created (`createOk` — on failure nothing was stored), the pair
is stored in the cell, and only then is the pipeline set to Playing
(`setPlayingOk` — on failure the error propagates with the pipeline still
stored). -/
def Recorder.start (createOk setPlayingOk : Bool) (device : Option String)
    (r : Recorder) : Except RecErr Unit × Recorder :=
  match r.pipeline with
  | some _ => (.error .alreadyRecording, r)
  | none =>
    if createOk then
      let r' : Recorder := ⟨some ⟨device, []⟩⟩
      if setPlayingOk then (.ok (), r') else (.error .setStateFailed, r')
    else
      (.error .createPipelineFailed, r)

/-- `Recorder::stop` (src/recognizer/recorder.rs lines 55–65): `take()`
empties the cell first and fails with the not-started error when it was
already empty; afterwards the pipeline is set to Null (`setNullOk`) and the
stream closed (`closeOk`), each propagating its failure, and on success the
stream's accumulated bytes are returned — the cell is left empty on every
path that got past the `take()`. -/
def Recorder.stop (setNullOk closeOk : Bool) (r : Recorder) :
    Except RecErr (List Nat) × Recorder :=
  match r.pipeline with
  | none => (.error .notRecording, r)
  | some act =>
    (if setNullOk then
       if closeOk then .ok act.buffer else .error .closeStreamFailed
     else .error .setStateFailed,
     ⟨none⟩)

/-- `glib::ControlFlow` returned by the bus watch. -/
inductive GstFlow
  | Continue
  | Break
  deriving DecidableEq, Repr

/-- A bus message as `handle_bus_message` distinguishes them: an element
message optionally carrying a structure (its name and the `peak` value
array, in dB), end-of-stream, an error, a state change (whose source may or
may not be the pipeline itself), a warning, an info message, or anything
else. -/
inductive BusMessage
  | element (struct : Option (String × List ℝ))
  | eos
  | errorMsg
  | stateChanged (srcIsPipeline : Bool)
  | warning
  | info
  | otherMsg

/-- `handle_bus_message` (src/recognizer/recorder.rs lines 68–142): returns
the control flow together with the values passed to the peak callback.  For
an element message whose structure is named `level`, the first entry of the
`peak` array is read (`first().unwrap()` — `none` models the panic on an
empty array) and the callback receives `10^(peak/20)`; Eos and Error break
the watch; every other message continues it without calling back. -/
noncomputable def handle_bus_message (msg : BusMessage) :
    Option (GstFlow × List ℝ) :=
  match msg with
  | .element none => some (.Continue, [])
  | .element (some (name, peaks)) =>
    if name = "level" then
      match peaks with
      | [] => none
      | p :: _ => some (.Continue, [(10 : ℝ) ^ (p / 20)])
    else
      some (.Continue, [])
  | .eos => some (.Break, [])
  | .errorMsg => some (.Break, [])
  | .stateChanged _ => some (.Continue, [])
  | .warning => some (.Continue, [])
  | .info => some (.Continue, [])
  | .otherMsg => some (.Continue, [])

/-- A configured property value on a pipeline element. -/
inductive PropVal
  | natV (n : Nat)
  | strV (s : String)
  | clockTimeMs (ms : Nat)
  | streamRef
  deriving DecidableEq, Repr

/-- One GStreamer element description: factory name and the properties the
code sets on it. -/
structure Elem where
  factory : String
  props : List (String × PropVal)
  deriving DecidableEq, Repr

/-- `create_pipeline` (src/recognizer/recorder.rs lines 144–198) as the
ordered element chain it builds: pulsesrc (with the device property when a
device name was given) → audioconvert → level (80 ms interval and peak-ttl)
→ opusenc (16 kbit/s) → oggmux → giostreamsink (bound to the memory output
stream). -/
def create_pipeline (device : Option String) : List Elem :=
  [⟨"pulsesrc", match device with | some d => [("device", .strV d)] | none => []⟩,
   ⟨"audioconvert", []⟩,
   ⟨"level", [("interval", .clockTimeMs 80), ("peak-ttl", .clockTimeMs 80)]⟩,
   ⟨"opusenc", [("bitrate", .natV 16000)]⟩,
   ⟨"oggmux", []⟩,
   ⟨"giostreamsink", [("stream", .streamRef)]⟩]

theorem srcApplyField_id (k : String) (v : JVal) (acc acc2 : SrcSong.Slots)
    (hk : ¬(k = "id")) (h : SrcSong.applyField k v acc = .ok acc2) :
    acc2.id = acc.id := by
  unfold SrcSong.applyField at h
  rw [if_neg hk] at h
  by_cases k1 : k = "title"
  · rw [if_pos k1] at h
    split at h <;>
      first
        | exact Except.noConfusion h
        | (injection h with h2; subst h2; rfl)
  rw [if_neg k1] at h
  by_cases k2 : k = "artist"
  · rw [if_pos k2] at h
    split at h <;>
      first
        | exact Except.noConfusion h
        | (injection h with h2; subst h2; rfl)
  rw [if_neg k2] at h
  by_cases k3 : k = "album"
  · rw [if_pos k3] at h
    split at h <;>
      first
        | exact Except.noConfusion h
        | (injection h with h2; subst h2; rfl)
  rw [if_neg k3] at h
  by_cases k4 : k = "release_date"
  · rw [if_pos k4] at h
    split at h <;>
      first
        | exact Except.noConfusion h
        | (injection h with h2; subst h2; rfl)
  rw [if_neg k4] at h
  by_cases k5 : k = "external_links"
  · rw [if_pos k5] at h
    split at h <;>
      first
        | exact Except.noConfusion h
        | (injection h with h2; subst h2; rfl)
  rw [if_neg k5] at h
  by_cases k6 : k = "album_art_link"
  · rw [if_pos k6] at h
    split at h <;>
      first
        | exact Except.noConfusion h
        | (injection h with h2; subst h2; rfl)
  rw [if_neg k6] at h
  by_cases k7 : k = "playback_link"
  · rw [if_pos k7] at h
    split at h <;>
      first
        | exact Except.noConfusion h
        | (injection h with h2; subst h2; rfl)
  rw [if_neg k7] at h
  by_cases k8 : k = "lyrics"
  · rw [if_pos k8] at h
    split at h <;>
      first
        | exact Except.noConfusion h
        | (injection h with h2; subst h2; rfl)
  rw [if_neg k8] at h
  by_cases k9 : k = "last_heard"
  · rw [if_pos k9] at h
    split at h <;>
      first
        | exact Except.noConfusion h
        | (injection h with h2; subst h2; rfl)
  rw [if_neg k9] at h
  by_cases k10 : k = "is_newly_heard"
  · rw [if_pos k10] at h
    split at h <;>
      first
        | exact Except.noConfusion h
        | (injection h with h2; subst h2; rfl)
  rw [if_neg k10] at h
  injection h with h2
  subst h2
  rfl

theorem srcVisit_id_of_no_id (fields : List (String × JVal)) :
    ∀ acc s : SrcSong.Slots, findField fields "id" = none →
      SrcSong.visitFields fields acc = .ok s → s.id = acc.id := by
  induction fields with
  | nil =>
    intro acc s _ h
    injection h with h2
    subst h2
    rfl
  | cons kv rest ih =>
    obtain ⟨k, v⟩ := kv
    intro acc s hf h
    unfold findField at hf
    by_cases hk : k = "id"
    · rw [if_pos hk] at hf
      exact Option.noConfusion hf
    · rw [if_neg hk] at hf
      unfold SrcSong.visitFields at h
      cases ha : SrcSong.applyField k v acc with
      | error e =>
        rw [ha] at h
        exact Except.noConfusion h
      | ok acc2 =>
        rw [ha] at h
        have h3 := ih acc2 s hf h
        rw [h3, srcApplyField_id k v acc acc2 hk ha]

theorem srcFinish_id_none (s : SrcSong.Slots) (h : s.id = none) :
    SrcSong.finishFields s = .error (.missingField "id") := by
  unfold SrcSong.finishFields
  rw [h]

/-- Claim C1 counterexample: with the durable write failing and a changing
value, `imp::Song::set_last_heard` ends in a panic (the `.unwrap()` aborts)
at an unchanged state; no catchable error is ever returned to the caller,
contradicting the claim that the failure propagates as a catchable
error. -/
theorem c1_counterexample :
    ModelSong.set_last_heard false ⟨⟨0, false⟩, ⟨0, false⟩⟩ 1 =
      .panicked ⟨⟨0, false⟩, ⟨0, false⟩⟩ [] ∧
    ModelSong.isCaughtErr
      (ModelSong.set_last_heard false ⟨⟨0, false⟩, ⟨0, false⟩⟩ 1) = false := by
  decide

/-- Claim C1 (amended): when the durable write fails during a
value-changing touch of `last_heard` or `is_newly_heard`, the setter
panics instead of returning a catchable error; at the moment of the panic
neither the durable record nor the in-memory field has been modified and no
notification has been emitted. -/
theorem c1_touch_failure_panics (w : ModelSong.World) (v : Int) (b : Bool)
    (hv : v ≠ w.mem.lastHeard) (hb : b ≠ w.mem.isNewlyHeard) :
    ModelSong.set_last_heard false w v = .panicked w [] ∧
    ModelSong.set_is_newly_heard false w b = .panicked w [] :=
  ⟨by simp [ModelSong.set_last_heard, hv], by simp [ModelSong.set_is_newly_heard, hb]⟩

/-- Claim C1 witness: the amended theorem applied at a concrete world with
a failing durable write. -/
theorem c1_touch_failure_panics_witness :
    ((1 : Int) ≠ 0) ∧ (true ≠ false) ∧
    (ModelSong.set_last_heard false ⟨⟨0, false⟩, ⟨0, false⟩⟩ 1 =
       .panicked ⟨⟨0, false⟩, ⟨0, false⟩⟩ [] ∧
     ModelSong.set_is_newly_heard false ⟨⟨0, false⟩, ⟨0, false⟩⟩ true =
       .panicked ⟨⟨0, false⟩, ⟨0, false⟩⟩ []) :=
  ⟨by decide, by decide,
    c1_touch_failure_panics ⟨⟨0, false⟩, ⟨0, false⟩⟩ 1 true (by decide) (by decide)⟩

/-- Claim C2: every value-changing call of a db-backed setter succeeds with
the event trace durable-write, then in-memory replace, then notification —
the durable record is updated before the in-memory field and before
observers hear of it — and the resulting world has the touched in-memory
field equal to its durable counterpart. -/
theorem c2_write_through (w : ModelSong.World) (v : Int) (b : Bool)
    (hv : v ≠ w.mem.lastHeard) (hb : b ≠ w.mem.isNewlyHeard) :
    ModelSong.set_last_heard true w v =
      .ok ⟨⟨v, w.mem.isNewlyHeard⟩, ⟨v, w.db.isNewlyHeard⟩⟩
        [.dbUpdateLastHeard v, .memReplaceLastHeard v, .notifyLastHeard] ∧
    ModelSong.set_is_newly_heard true w b =
      .ok ⟨⟨w.mem.lastHeard, b⟩, ⟨w.db.lastHeard, b⟩⟩
        [.dbUpdateIsNewlyHeard b, .memReplaceIsNewlyHeard b, .notifyIsNewlyHeard] :=
  ⟨by simp [ModelSong.set_last_heard, hv], by simp [ModelSong.set_is_newly_heard, hb]⟩

/-- Claim C2 witness: the write-through theorem applied at a concrete
world and changing values. -/
theorem c2_write_through_witness :
    ((1 : Int) ≠ 0) ∧ (true ≠ false) ∧
    (ModelSong.set_last_heard true ⟨⟨0, false⟩, ⟨0, false⟩⟩ 1 =
       .ok ⟨⟨1, false⟩, ⟨1, false⟩⟩
         [.dbUpdateLastHeard 1, .memReplaceLastHeard 1, .notifyLastHeard] ∧
     ModelSong.set_is_newly_heard true ⟨⟨0, false⟩, ⟨0, false⟩⟩ true =
       .ok ⟨⟨0, true⟩, ⟨0, true⟩⟩
         [.dbUpdateIsNewlyHeard true, .memReplaceIsNewlyHeard true, .notifyIsNewlyHeard]) :=
  ⟨by decide, by decide,
    c2_write_through ⟨⟨0, false⟩, ⟨0, false⟩⟩ 1 true (by decide) (by decide)⟩

/-- Claim C4: repeating a `set_last_heard` with the same value is
idempotent in both Song variants — after a first call returned normally, a
second call with the same value returns the state unchanged with an empty
event trace: no durable write and no notification. -/
theorem c4_touch_idempotent (d : Bool) (w w1 : ModelSong.World) (v : Int)
    (tr : List ModelSong.Ev)
    (h : ModelSong.set_last_heard d w v = .ok w1 tr)
    (u : SrcSong.LiteWorld) (ov : Option Int) :
    ModelSong.set_last_heard d w1 v = .ok w1 [] ∧
    SrcSong.set_last_heard (SrcSong.set_last_heard u ov).1 ov =
      ((SrcSong.set_last_heard u ov).1, []) := by
  constructor
  · have hw1 : w1.mem.lastHeard = v := by
      unfold ModelSong.set_last_heard at h
      split_ifs at h with hc hd
      · injection h with h1 h2
        subst h1
        exact hc.symm
      · injection h with h1 h2
        subst h1
        rfl
    unfold ModelSong.set_last_heard
    rw [if_pos hw1.symm]
  · by_cases hc : ov = u.lastHeard
    · simp [SrcSong.set_last_heard, hc]
    · simp [SrcSong.set_last_heard, hc]

/-- Claim C4 witness: idempotence applied at a concrete world, value, and
lite-world. -/
theorem c4_touch_idempotent_witness :
    (ModelSong.set_last_heard true ⟨⟨0, false⟩, ⟨0, false⟩⟩ 1 =
       .ok ⟨⟨1, false⟩, ⟨1, false⟩⟩
         [.dbUpdateLastHeard 1, .memReplaceLastHeard 1, .notifyLastHeard]) ∧
    (ModelSong.set_last_heard true ⟨⟨1, false⟩, ⟨1, false⟩⟩ 1 =
       .ok ⟨⟨1, false⟩, ⟨1, false⟩⟩ [] ∧
     SrcSong.set_last_heard (SrcSong.set_last_heard ⟨none⟩ (some 2)).1 (some 2) =
       ((SrcSong.set_last_heard ⟨none⟩ (some 2)).1, [])) :=
  ⟨by decide,
    c4_touch_idempotent true ⟨⟨0, false⟩, ⟨0, false⟩⟩ ⟨⟨1, false⟩, ⟨1, false⟩⟩ 1
      [.dbUpdateLastHeard 1, .memReplaceLastHeard 1, .notifyLastHeard]
      (by decide) ⟨none⟩ (some 2)⟩

/-- Claim C5: serializing then deserializing a Song yields the same record
field by field, id included, in both variants — in particular for a song
with every optional field populated and for one with all optional fields
absent. -/
theorem c5_serde_roundtrip :
    (∀ s : SrcSong.Data, SrcSong.deserialize (SrcSong.serialize s) = .ok s) ∧
    (∀ (freshId dlh : String) (d : ModelSong.Data),
      ModelSong.deserialize freshId dlh (ModelSong.serialize d) = .ok d) := by
  constructor
  · intro s
    rcases s with ⟨id, t, a, al, rd, el, aal, pl, ly, lh, nb⟩
    cases rd <;> cases aal <;> cases pl <;> cases ly <;> cases lh <;> rfl
  · intro freshId dlh d
    rcases d with ⟨id, t, a, al, rd, el, aal, pl, ly, lh, nb⟩
    cases rd <;> cases aal <;> cases pl <;> cases ly <;> rfl

/-- Claim C10 counterexample: the record holding only a boolean-valued
`title` lacks the `id` field, yet deserializing it fails with the
invalid-type error the map traversal raises on `title` — not with a
missing-field error — contradicting the claim that a record lacking `id`
fails with a missing-field error. -/
theorem c10_counterexample :
    findField [("title", .jbool true)] "id" = none ∧
    SrcSong.deserialize [("title", .jbool true)] =
      .error (.invalidType "title") ∧
    isMissingFieldErr (SrcSong.deserialize [("title", .jbool true)]) = false :=
  ⟨rfl, rfl, rfl⟩

/-- Claim C10 (amended): deserializing the src/song.rs Song from a record
without an `id` field always fails, so no Song is constructed; when the
record's present entries themselves survive the map traversal (well-typed
values, no duplicate keys) the failure is precisely the missing-field
error for `id`; and conversely every successful deserialization consumed
an `id` field from the record. -/
theorem c10_missing_id :
    (∀ fields : JObj, findField fields "id" = none →
      deIsOk (SrcSong.deserialize fields) = false) ∧
    (∀ (fields : JObj) (s : SrcSong.Slots), findField fields "id" = none →
      SrcSong.visitFields fields SrcSong.emptySlots = .ok s →
      SrcSong.deserialize fields = .error (.missingField "id")) ∧
    (∀ (fields : JObj) (d : SrcSong.Data),
      SrcSong.deserialize fields = .ok d → findField fields "id" ≠ none) := by
  have hb : ∀ (fields : JObj) (s : SrcSong.Slots), findField fields "id" = none →
      SrcSong.visitFields fields SrcSong.emptySlots = .ok s →
      SrcSong.deserialize fields = .error (.missingField "id") := by
    intro fields s hf hv
    have hid : s.id = none := srcVisit_id_of_no_id fields SrcSong.emptySlots s hf hv
    unfold SrcSong.deserialize
    rw [hv]
    exact srcFinish_id_none s hid
  have ha : ∀ fields : JObj, findField fields "id" = none →
      deIsOk (SrcSong.deserialize fields) = false := by
    intro fields hf
    cases hv : SrcSong.visitFields fields SrcSong.emptySlots with
    | error e =>
      have he : SrcSong.deserialize fields = .error e := by
        unfold SrcSong.deserialize
        rw [hv]
      rw [he]
      rfl
    | ok s =>
      rw [hb fields s hf hv]
      rfl
  refine ⟨ha, hb, ?_⟩
  intro fields d hok hnone
  have hfalse := ha fields hnone
  rw [hok] at hfalse
  exact Bool.noConfusion hfalse

/-- Claim C10 witness: the amended theorem applied to the empty record, to
a well-formed id-less record (yielding the missing-id error), and to a
complete record that deserializes successfully. -/
theorem c10_missing_id_witness :
    deIsOk (SrcSong.deserialize []) = false ∧
    SrcSong.deserialize [("title", .jstr "T")] = .error (.missingField "id") ∧
    findField [("id", .jstr "i"), ("title", .jstr "t"), ("artist", .jstr "a"),
      ("album", .jstr "b"), ("release_date", .null), ("external_links", .jmap []),
      ("album_art_link", .null), ("playback_link", .null), ("lyrics", .null),
      ("last_heard", .null), ("is_newly_heard", .jbool false)] "id" ≠ none :=
  ⟨c10_missing_id.1 [] rfl,
   c10_missing_id.2.1 [("title", .jstr "T")]
     ⟨none, some "T", none, none, none, none, none, none, none, none, none⟩ rfl rfl,
   c10_missing_id.2.2
     [("id", .jstr "i"), ("title", .jstr "t"), ("artist", .jstr "a"),
      ("album", .jstr "b"), ("release_date", .null), ("external_links", .jmap []),
      ("album_art_link", .null), ("playback_link", .null), ("lyrics", .null),
      ("last_heard", .null), ("is_newly_heard", .jbool false)]
     ⟨"i", "t", "a", "b", none, [], none, none, none, none, false⟩ rfl⟩

/-- Claim C3 counterexample: for the db-backed Song variant, the string it
is matched against when searching (`search_term`) on a concrete song is the
title directly followed by the artist, which differs from artist, space,
title. -/
theorem c3_counterexample :
    ModelSong.search_term
      ⟨"id0", "Imagine", "John Lennon", "", none, [], none, none, none, "t0", false⟩ =
      "ImagineJohn Lennon" ∧
    ("ImagineJohn Lennon" : String) ≠ "John Lennon" ++ " " ++ "Imagine" := by
  constructor
  · rfl
  · decide

/-- Claim C3 (amended): for the src/song.rs Song, `fuzzy_match` scores the
pattern against the artist, a space, then the title; for the
src/model/song.rs Song, the string matched when searching is the title
directly followed by the artist, with no space and in the opposite
order. -/
theorem c3_search_strings (matcher : String → String → Option Int)
    (s : SrcSong.Data) (pat : String) (m : ModelSong.Data) :
    SrcSong.fuzzy_match matcher s pat = matcher (s.artist ++ " " ++ s.title) pat ∧
    ModelSong.search_term m = m.title ++ m.artist :=
  ⟨rfl, rfl⟩

/-- Claim C6 counterexample: on an inactive Recorder, with pipeline
construction succeeding but the switch to Playing failing, `start` returns
the propagated state-change error — not Ok as the claim demands — and
moreover leaves the pipeline stored. -/
theorem c6_counterexample :
    Recorder.start true false none ⟨none⟩ =
      (.error .setStateFailed, ⟨some ⟨none, []⟩⟩) ∧
    (Recorder.start true false none ⟨none⟩).1 ≠ .ok () := by
  refine ⟨rfl, ?_⟩
  intro hcontra
  simp [Recorder.start] at hcontra

/-- Claim C6 (amended): starting an already-active Recorder fails with the
already-recording error and leaves the stored pipeline, bus watch and
output stream untouched; starting an inactive Recorder returns Ok and makes
it active when pipeline construction and the switch to Playing both
succeed (if only the Playing switch fails, the error is returned but the
Recorder is nonetheless left active). -/
theorem c6_start (c p : Bool) (d : Option String) (r : Recorder) :
    (∀ a, r.pipeline = some a →
      Recorder.start c p d r = (.error .alreadyRecording, r)) ∧
    (r.pipeline = none →
      Recorder.start true true d r = (.ok (), ⟨some ⟨d, []⟩⟩)) := by
  constructor
  · intro a ha
    unfold Recorder.start
    rw [ha]
  · intro h0
    unfold Recorder.start
    rw [h0]
    rfl

/-- Claim C6 witness: the start theorem applied to a concrete active
Recorder and a concrete inactive one. -/
theorem c6_start_witness :
    Recorder.start true true none ⟨some ⟨none, []⟩⟩ =
      (.error .alreadyRecording, ⟨some ⟨none, []⟩⟩) ∧
    Recorder.start true true none ⟨none⟩ = (.ok (), ⟨some ⟨none, []⟩⟩) :=
  ⟨(c6_start true true none ⟨some ⟨none, []⟩⟩).1 ⟨none, []⟩ rfl,
   (c6_start true true none ⟨none⟩).2 rfl⟩

/-- Claim C7: stopping an inactive Recorder fails with the not-started
error and changes nothing; stopping an active Recorder with pipeline
finalization and stream close succeeding returns the accumulated encoded
bytes — for any buffer, the empty one included — and deactivates it. -/
theorem c7_stop (sOk cOk : Bool) (a : ActivePipeline) (r : Recorder) :
    (r.pipeline = none → Recorder.stop sOk cOk r = (.error .notRecording, r)) ∧
    (r.pipeline = some a → Recorder.stop true true r = (.ok a.buffer, ⟨none⟩)) := by
  constructor
  · intro h0
    unfold Recorder.stop
    rw [h0]
  · intro ha
    unfold Recorder.stop
    rw [ha]
    rfl

/-- Claim C7 witness: the stop theorem applied to a concrete inactive
Recorder and to a concrete active one whose stream holds no data, yielding
the empty buffer. -/
theorem c7_stop_witness :
    Recorder.stop true true ⟨none⟩ = (.error .notRecording, ⟨none⟩) ∧
    Recorder.stop true true ⟨some ⟨none, []⟩⟩ = (.ok [], ⟨none⟩) :=
  ⟨(c7_stop true true ⟨none, []⟩ ⟨none⟩).1 rfl,
   (c7_stop true true ⟨none, []⟩ ⟨some ⟨none, []⟩⟩).2 rfl⟩

/-- Claim C9: any stop of an active Recorder — whether it returns Ok or an
error from the state change or the stream close — leaves the Recorder
inactive, and a subsequent start can no longer fail with the
already-recording error. -/
theorem c9_stop_clears (sOk cOk c p : Bool) (d : Option String)
    (a : ActivePipeline) (r : Recorder) (h : r.pipeline = some a) :
    (Recorder.stop sOk cOk r).2 = ⟨none⟩ ∧
    (Recorder.start c p d (Recorder.stop sOk cOk r).2).1 ≠
      .error .alreadyRecording := by
  have h2 : (Recorder.stop sOk cOk r).2 = ⟨none⟩ := by
    unfold Recorder.stop
    rw [h]
  refine ⟨h2, ?_⟩
  rw [h2]
  cases c <;> cases p <;> simp [Recorder.start]

/-- Claim C9 witness: the theorem applied to a concrete active Recorder on
the error path (pipeline finalization failing). -/
theorem c9_stop_clears_witness :
    (⟨some ⟨none, [1]⟩⟩ : Recorder).pipeline = some ⟨none, [1]⟩ ∧
    ((Recorder.stop false true ⟨some ⟨none, [1]⟩⟩).2 = ⟨none⟩ ∧
     (Recorder.start true true none (Recorder.stop false true ⟨some ⟨none, [1]⟩⟩).2).1 ≠
       .error .alreadyRecording) :=
  ⟨rfl, c9_stop_clears false true true true none ⟨none, [1]⟩ ⟨some ⟨none, [1]⟩⟩ rfl⟩

/-- Claim C8: a level element message carrying peak value p (dB) makes the
peak callback receive the normalized amplitude 10 ^ (p / 20) (and the watch
continues), and the level element of the capture pipeline is configured
with an 80 ms reporting interval. -/
theorem c8_peak_normalized (p : ℝ) (rest : List ℝ) (d : Option String) :
    handle_bus_message (.element (some ("level", p :: rest))) =
      some (.Continue, [(10 : ℝ) ^ (p / 20)]) ∧
    (create_pipeline d)[2]? =
      some ⟨"level", [("interval", .clockTimeMs 80), ("peak-ttl", .clockTimeMs 80)]⟩ := by
  constructor
  · simp [handle_bus_message]
  · cases d <;> rfl
